import Mathlib

/-
Shallow embedding of `node/src/chain_spec.rs` from the zcloak-collator
repository: chain-specification profile factories, seed-based account
derivation, the strict `Extensions` deserializer, and the genesis builder
`testnet_genesis`.
-/

set_option autoImplicit false

namespace ZCloak

/-- Account identities (`AccountId` from `rococo_parachain_primitives`) are
32-byte public-key-derived values; modelled as a list of byte values. -/
abbrev AccountId := List Nat

/-- The numeric parachain identifier (`ParaId`, a `u32` wrapper). -/
abbrev ParaId := Nat

/-- A JSON value, used to model `serde_json` values for the `Extensions`
deserializer and for chain-spec `Properties`. Numbers are modelled as
integers, which covers every number this module manipulates. -/
inductive Json where
  | null : Json
  | bool (b : Bool) : Json
  | num (n : Int) : Json
  | str (s : String) : Json
  | arr (xs : List Json) : Json
  | obj (fields : List (String × Json)) : Json

/-- The extensions for the chain spec: relay-chain name and parachain id
(`struct Extensions` in `chain_spec.rs`, with `#[serde(deny_unknown_fields)]`). -/
structure Extensions where
  relay_chain : String
  para_id : ParaId
deriving DecidableEq, Repr

/-- Model of `frame_system::SystemConfig`: the runtime code blob plus the
changes-trie configuration (left at its default, `None`). -/
structure SystemConfig where
  code : List Nat
  changes_trie_config : Option Unit
deriving DecidableEq, Repr

/-- Model of `pallet_balances::BalancesConfig`: the ordered list of
(account, balance) genesis credits. -/
structure BalancesConfig where
  balances : List (AccountId × Nat)
deriving DecidableEq, Repr

/-- Model of `pallet_sudo::SudoConfig`: the administrative (sudo) key. -/
structure SudoConfig where
  key : AccountId
deriving DecidableEq, Repr

/-- Model of `parachain_info::ParachainInfoConfig`. -/
structure ParachainInfoConfig where
  parachain_id : ParaId
deriving DecidableEq, Repr

/-- Model of `parachain_runtime::GenesisConfig` as assembled by
`testnet_genesis`. -/
structure GenesisConfig where
  frame_system : SystemConfig
  pallet_balances : BalancesConfig
  pallet_sudo : SudoConfig
  parachain_info : ParachainInfoConfig
deriving DecidableEq, Repr

/-- Model of `testnet_genesis` (chain_spec.rs lines 156-178). The build-time
global `parachain_runtime::WASM_BINARY : Option<&[u8]>` is threaded in as an
explicit parameter; the `.expect("WASM binary was not build, please build
it!")` panic on `None` is modelled as `Except.error` carrying the panic
message. Balances map each endowed account to `10_u128.pow(28)` (no
overflow: `10^28 < 2^128`). -/
def testnet_genesis (wasm_binary : Option (List Nat)) (root_key : AccountId)
    (endowed_accounts : List AccountId) (id : ParaId) :
    Except String GenesisConfig :=
  match wasm_binary with
  | none => Except.error "WASM binary was not build, please build it!"
  | some code =>
    Except.ok
      { frame_system := { code := code, changes_trie_config := none }
        pallet_balances :=
          { balances := endowed_accounts.map (fun k => (k, 10 ^ 28)) }
        pallet_sudo := { key := root_key }
        parachain_info := { parachain_id := id } }

/-- Model of the external cryptographic primitives (the `sp_core` /
`sp_runtime` collaborators) that seed derivation composes:
`pairFromStringPublic` models `TPublic::Pair::from_string(s, None).public()`
for sr25519 (total here, since the module only ever calls it on well-formed
derivation strings and treats failure as a fatal programmer error), and
`intoAccount` models `AccountPublic::from(public).into_account()`. -/
structure SeedCrypto where
  pairFromStringPublic : String → List Nat
  intoAccount : List Nat → AccountId

/-- Model of `get_from_seed` (chain_spec.rs lines 50-54): prefix the seed
with the path separator `//` and expand it through the external pair
derivation, keeping the public half. -/
def get_from_seed (c : SeedCrypto) (seed : String) : List Nat :=
  c.pairFromStringPublic ("//" ++ seed)

/-- Model of `get_account_id_from_seed` (chain_spec.rs lines 59-64):
compose `get_from_seed` with the signer-identity transform. -/
def get_account_id_from_seed (c : SeedCrypto) (seed : String) : AccountId :=
  c.intoAccount (get_from_seed c seed)

/-- Network classification (`sc_service::ChainType`). -/
inductive ChainType where
  | Development : ChainType
  | Local : ChainType
  | Live : ChainType
deriving DecidableEq, Repr

/-- Model of `sc_telemetry::TelemetryEndpoints`: a validated list of
(url, verbosity) pairs. -/
structure TelemetryEndpoints where
  endpoints : List (String × Nat)
deriving DecidableEq, Repr

/-- Chain-spec display properties (`sc_service::Properties`, a JSON map in
insertion order). -/
abbrev Properties := List (String × Json)

/-- Model of the specialized `ChainSpec` built by
`sc_service::GenericChainSpec::from_genesis`: the fields this module
supplies, in the order of the `from_genesis` arguments. The deferred
genesis closure is modelled by its (already wasm-applied) result. -/
structure ChainSpec where
  name : String
  id : String
  chain_type : ChainType
  genesis : Except String GenesisConfig
  boot_nodes : List String
  telemetry_endpoints : Option TelemetryEndpoints
  protocol_id : Option String
  properties : Option Properties
  extensions : Extensions

/-- Model of `ChainSpec::from_genesis` with the source's positional
arguments: plain structural construction. -/
def ChainSpec.from_genesis (name id : String) (chain_type : ChainType)
    (constructor : Except String GenesisConfig) (boot_nodes : List String)
    (telemetry_endpoints : Option TelemetryEndpoints)
    (protocol_id : Option String) (properties : Option Properties)
    (extensions : Extensions) : ChainSpec :=
  { name := name, id := id, chain_type := chain_type, genesis := constructor,
    boot_nodes := boot_nodes, telemetry_endpoints := telemetry_endpoints,
    protocol_id := protocol_id, properties := properties,
    extensions := extensions }

/-- Model of `get_chain_spec` (chain_spec.rs lines 66-100), the
development/local profile factory. `c` is the external crypto collaborator
and `wasm_binary` the build-time runtime blob captured by the genesis
closure. -/
def get_chain_spec (c : SeedCrypto) (wasm_binary : Option (List Nat))
    (id : ParaId) : ChainSpec :=
  ChainSpec.from_genesis
    "Local Testnet"
    "local_testnet"
    ChainType.Local
    (testnet_genesis wasm_binary
      (get_account_id_from_seed c "Alice")
      [ get_account_id_from_seed c "Alice",
        get_account_id_from_seed c "Bob",
        get_account_id_from_seed c "Charlie",
        get_account_id_from_seed c "Dave",
        get_account_id_from_seed c "Eve",
        get_account_id_from_seed c "Ferdie",
        get_account_id_from_seed c "Alice//stash",
        get_account_id_from_seed c "Bob//stash",
        get_account_id_from_seed c "Charlie//stash",
        get_account_id_from_seed c "Dave//stash",
        get_account_id_from_seed c "Eve//stash",
        get_account_id_from_seed c "Ferdie//stash" ]
      id)
    []
    none
    none
    none
    { relay_chain := "westend-dev", para_id := id }

/-- Bytes of the hex literal
9ed7705e3c7da027ba0583a22a3212042f7e715d3c168ba14f1424e2bc111d00
used as the root key in `staging_test_net` (chain_spec.rs line 109). -/
def staging_root_account : AccountId :=
  [0x9e, 0xd7, 0x70, 0x5e, 0x3c, 0x7d, 0xa0, 0x27,
   0xba, 0x05, 0x83, 0xa2, 0x2a, 0x32, 0x12, 0x04,
   0x2f, 0x7e, 0x71, 0x5d, 0x3c, 0x16, 0x8b, 0xa1,
   0x4f, 0x14, 0x24, 0xe2, 0xbc, 0x11, 0x1d, 0x00]

/-- Bytes of the hex literal
9ed7705e3c7da027ba0583a22a3212042f7e715d3c168ba14f1424e2bc111d00
used as the sole endowed account in `staging_test_net` (chain_spec.rs
line 111); the source repeats the same literal. -/
def staging_endowed_account : AccountId :=
  [0x9e, 0xd7, 0x70, 0x5e, 0x3c, 0x7d, 0xa0, 0x27,
   0xba, 0x05, 0x83, 0xa2, 0x2a, 0x32, 0x12, 0x04,
   0x2f, 0x7e, 0x71, 0x5d, 0x3c, 0x16, 0x8b, 0xa1,
   0x4f, 0x14, 0x24, 0xe2, 0xbc, 0x11, 0x1d, 0x00]

/-- Model of `staging_test_net` (chain_spec.rs lines 102-125). -/
def staging_test_net (wasm_binary : Option (List Nat)) (id : ParaId) :
    ChainSpec :=
  ChainSpec.from_genesis
    "Staging Testnet"
    "staging_testnet"
    ChainType.Live
    (testnet_genesis wasm_binary
      staging_root_account
      [staging_endowed_account]
      id)
    []
    none
    none
    none
    { relay_chain := "westend-dev", para_id := id }

/-- Bytes of the hex literal
5ae0bef89390c69ddceef596adb034b6b0546f5a0f9d8cb042e9288bd9e45e54
used as the root key in `starks_pc1_testnet` (chain_spec.rs line 137). -/
def starks_root_account : AccountId :=
  [0x5a, 0xe0, 0xbe, 0xf8, 0x93, 0x90, 0xc6, 0x9d,
   0xdc, 0xee, 0xf5, 0x96, 0xad, 0xb0, 0x34, 0xb6,
   0xb0, 0x54, 0x6f, 0x5a, 0x0f, 0x9d, 0x8c, 0xb0,
   0x42, 0xe9, 0x28, 0x8b, 0xd9, 0xe4, 0x5e, 0x54]

/-- Bytes of the hex literal
1020e6d91d63cce6f6d961b5ec76364fe5601dd132e06a0de4dad3298ad8565a
used as the sole endowed account in `starks_pc1_testnet` (chain_spec.rs
line 139). -/
def starks_endowed_account : AccountId :=
  [0x10, 0x20, 0xe6, 0xd9, 0x1d, 0x63, 0xcc, 0xe6,
   0xf6, 0xd9, 0x61, 0xb5, 0xec, 0x76, 0x36, 0x4f,
   0xe5, 0x60, 0x1d, 0xd1, 0x32, 0xe0, 0x6a, 0x0d,
   0xe4, 0xda, 0xd3, 0x29, 0x8a, 0xd8, 0x56, 0x5a]

/-- Model of `starks_pc1_testnet` (chain_spec.rs lines 127-153).
`telemetryNew` models the external `TelemetryEndpoints::new`, whose
`Result` the source converts with `.ok()` into an `Option` (failure becomes
`None`, i.e. telemetry disabled). -/
def starks_pc1_testnet
    (telemetryNew : List (String × Nat) → Except String TelemetryEndpoints)
    (wasm_binary : Option (List Nat)) (id : ParaId) : ChainSpec :=
  ChainSpec.from_genesis
    "zCloak Network PC1"
    "zcloak_network"
    ChainType.Live
    (testnet_genesis wasm_binary
      starks_root_account
      [starks_endowed_account]
      id)
    []
    (telemetryNew [("wss://telemetry.polkadot.io/submit/", 0)]).toOption
    (some "zcloak-pc1")
    (some [("tokenSymbol", Json.str "STN"), ("tokenDecimals", Json.num 18)])
    { relay_chain := "rococo", para_id := id }

/-- Field-visiting loop of the `Deserialize` impl that `serde` derives for
`Extensions` under `#[serde(deny_unknown_fields)]` (chain_spec.rs lines
29-36): fields are consumed in order; a repeated field is a duplicate-field
error, a field outside the declared set is an unknown-field error,
`relay_chain` must be a string, `para_id` must be an unsigned integer that
fits in a `u32`, and at the end both fields must have been seen. -/
def extensionsFromFields :
    List (String × Json) → Option String → Option ParaId →
    Except String Extensions
  | [], orc, opid =>
    match orc, opid with
    | some rc, some pid => Except.ok { relay_chain := rc, para_id := pid }
    | none, _ => Except.error "missing field relay_chain"
    | some _, none => Except.error "missing field para_id"
  | (k, v) :: rest, orc, opid =>
    if k = "relay_chain" then
      match orc with
      | some _ => Except.error "duplicate field relay_chain"
      | none =>
        match v with
        | Json.str s => extensionsFromFields rest (some s) opid
        | _ => Except.error "invalid type: expected a string for relay_chain"
    else if k = "para_id" then
      match opid with
      | some _ => Except.error "duplicate field para_id"
      | none =>
        match v with
        | Json.num n =>
          if 0 ≤ n ∧ n < 4294967296 then
            extensionsFromFields rest orc (some n.toNat)
          else Except.error "invalid value: out of range integral type u32"
        | _ =>
          Except.error "invalid type: expected an unsigned integer for para_id"
    else Except.error ("unknown field " ++ k)

/-- Deserializing an `Extensions` record from an external serialized JSON
value, per the derived `Deserialize` impl with
`#[serde(deny_unknown_fields)]`: the input must be a map, visited by
`extensionsFromFields`. -/
def deserializeExtensions : Json → Except String Extensions
  | Json.obj fields => extensionsFromFields fields none none
  | _ => Except.error "invalid type: expected a map for struct Extensions"

/-- Any field list accepted by the `Extensions` field visitor consists
only of the two declared field names: an unrecognized field name anywhere
in the input triggers the unknown-field error before acceptance. -/
theorem extensionsFromFields_ok_keys (fields : List (String × Json)) :
    ∀ (orc : Option String) (opid : Option ParaId) (e : Extensions),
      extensionsFromFields fields orc opid = Except.ok e →
      ∀ kv ∈ fields, kv.1 = "relay_chain" ∨ kv.1 = "para_id" := by
  induction fields with
  | nil =>
    intro orc opid e hok kv hkv
    exact absurd hkv (List.not_mem_nil kv)
  | cons hd tl ih =>
    intro orc opid e hok kv hkv
    obtain ⟨k, v⟩ := hd
    by_cases hk1 : k = "relay_chain"
    · rcases List.mem_cons.mp hkv with heq | hmem
      · exact Or.inl (heq ▸ hk1)
      · cases orc with
        | some rc => simp [extensionsFromFields, hk1] at hok
        | none =>
          cases v with
          | str s =>
            have hok2 : extensionsFromFields tl (some s) opid =
                Except.ok e := by
              simpa [extensionsFromFields, hk1] using hok
            exact ih (some s) opid e hok2 kv hmem
          | null => simp [extensionsFromFields, hk1] at hok
          | bool b => simp [extensionsFromFields, hk1] at hok
          | num n => simp [extensionsFromFields, hk1] at hok
          | arr xs => simp [extensionsFromFields, hk1] at hok
          | obj fs => simp [extensionsFromFields, hk1] at hok
    · by_cases hk2 : k = "para_id"
      · rcases List.mem_cons.mp hkv with heq | hmem
        · exact Or.inr (heq ▸ hk2)
        · cases opid with
          | some pid => simp [extensionsFromFields, hk1, hk2] at hok
          | none =>
            cases v with
            | num n =>
              by_cases hn : 0 ≤ n ∧ n < 4294967296
              · have hok2 : extensionsFromFields tl orc (some n.toNat) =
                    Except.ok e := by
                  simpa [extensionsFromFields, hk1, hk2, hn] using hok
                exact ih orc (some n.toNat) e hok2 kv hmem
              · simp [extensionsFromFields, hk1, hk2, hn] at hok
            | null => simp [extensionsFromFields, hk1, hk2] at hok
            | bool b => simp [extensionsFromFields, hk1, hk2] at hok
            | str s => simp [extensionsFromFields, hk1, hk2] at hok
            | arr xs => simp [extensionsFromFields, hk1, hk2] at hok
            | obj fs => simp [extensionsFromFields, hk1, hk2] at hok
      · simp [extensionsFromFields, hk1, hk2] at hok

/-- Once both fields have been seen, the visitor accepts only the empty
remainder: any further field is a duplicate or unknown and errors. -/
theorem extensionsFromFields_both_seen (rest : List (String × Json))
    (s : String) (p : ParaId) (e : Extensions)
    (hok : extensionsFromFields rest (some s) (some p) = Except.ok e) :
    rest = [] ∧ e = { relay_chain := s, para_id := p } := by
  cases rest with
  | nil =>
    refine ⟨rfl, ?_⟩
    have : Except.ok (ε := String)
        ({ relay_chain := s, para_id := p } : Extensions) = Except.ok e := hok
    exact (Except.ok.injEq _ _ ▸ this).symm
  | cons hd tl =>
    obtain ⟨k, v⟩ := hd
    by_cases hk1 : k = "relay_chain"
    · simp [extensionsFromFields, hk1] at hok
    · by_cases hk2 : k = "para_id"
      · simp [extensionsFromFields, hk1, hk2] at hok
      · simp [extensionsFromFields, hk1, hk2] at hok

/-- After `relay_chain` has been seen (and `para_id` not yet), acceptance
forces the remainder to be exactly one in-range `para_id` number field. -/
theorem extensionsFromFields_rc_seen (rest : List (String × Json))
    (s : String) (e : Extensions)
    (hok : extensionsFromFields rest (some s) none = Except.ok e) :
    ∃ n : Int, 0 ≤ n ∧ n < 4294967296 ∧
      rest = [("para_id", Json.num n)] ∧
      e = { relay_chain := s, para_id := n.toNat } := by
  cases rest with
  | nil => simp [extensionsFromFields] at hok
  | cons hd tl =>
    obtain ⟨k, v⟩ := hd
    by_cases hk1 : k = "relay_chain"
    · simp [extensionsFromFields, hk1] at hok
    · by_cases hk2 : k = "para_id"
      · cases v with
        | num n =>
          by_cases hn : 0 ≤ n ∧ n < 4294967296
          · have hok2 : extensionsFromFields tl (some s) (some n.toNat) =
                Except.ok e := by
              simpa [extensionsFromFields, hk1, hk2, hn] using hok
            obtain ⟨htl, he⟩ :=
              extensionsFromFields_both_seen tl s n.toNat e hok2
            exact ⟨n, hn.1, hn.2, by rw [hk2, htl], he⟩
          · simp [extensionsFromFields, hk1, hk2, hn] at hok
        | null => simp [extensionsFromFields, hk1, hk2] at hok
        | bool b => simp [extensionsFromFields, hk1, hk2] at hok
        | str t => simp [extensionsFromFields, hk1, hk2] at hok
        | arr xs => simp [extensionsFromFields, hk1, hk2] at hok
        | obj fs => simp [extensionsFromFields, hk1, hk2] at hok
      · simp [extensionsFromFields, hk1, hk2] at hok

/-- After `para_id` has been seen (and `relay_chain` not yet), acceptance
forces the remainder to be exactly one `relay_chain` string field. -/
theorem extensionsFromFields_pid_seen (rest : List (String × Json))
    (p : ParaId) (e : Extensions)
    (hok : extensionsFromFields rest none (some p) = Except.ok e) :
    ∃ s : String,
      rest = [("relay_chain", Json.str s)] ∧
      e = { relay_chain := s, para_id := p } := by
  cases rest with
  | nil => simp [extensionsFromFields] at hok
  | cons hd tl =>
    obtain ⟨k, v⟩ := hd
    by_cases hk1 : k = "relay_chain"
    · cases v with
      | str s =>
        have hok2 : extensionsFromFields tl (some s) (some p) =
            Except.ok e := by
          simpa [extensionsFromFields, hk1] using hok
        obtain ⟨htl, he⟩ := extensionsFromFields_both_seen tl s p e hok2
        exact ⟨s, by rw [hk1, htl], he⟩
      | null => simp [extensionsFromFields, hk1] at hok
      | bool b => simp [extensionsFromFields, hk1] at hok
      | num n => simp [extensionsFromFields, hk1] at hok
      | arr xs => simp [extensionsFromFields, hk1] at hok
      | obj fs => simp [extensionsFromFields, hk1] at hok
    · by_cases hk2 : k = "para_id"
      · simp [extensionsFromFields, hk1, hk2] at hok
      · simp [extensionsFromFields, hk1, hk2] at hok

/-- Acceptance from the initial visitor state characterizes the input
exactly: a string-valued `relay_chain` field and an in-range numeric
`para_id` field, each exactly once, in either order, and nothing else. -/
theorem extensionsFromFields_initial_ok (fields : List (String × Json))
    (e : Extensions)
    (hok : extensionsFromFields fields none none = Except.ok e) :
    e.para_id < 4294967296 ∧
    (fields = [("relay_chain", Json.str e.relay_chain),
               ("para_id", Json.num (e.para_id : Int))] ∨
     fields = [("para_id", Json.num (e.para_id : Int)),
               ("relay_chain", Json.str e.relay_chain)]) := by
  cases fields with
  | nil => simp [extensionsFromFields] at hok
  | cons hd tl =>
    obtain ⟨k, v⟩ := hd
    by_cases hk1 : k = "relay_chain"
    · cases v with
      | str s =>
        have hok2 : extensionsFromFields tl (some s) none =
            Except.ok e := by
          simpa [extensionsFromFields, hk1] using hok
        obtain ⟨n, hn0, hnlt, htl, he⟩ :=
          extensionsFromFields_rc_seen tl s e hok2
        subst he
        have hcast : (Int.toNat n : Int) = n := Int.toNat_of_nonneg hn0
        constructor
        · show n.toNat < 4294967296
          omega
        · left
          rw [hk1, htl, hcast]
      | null => simp [extensionsFromFields, hk1] at hok
      | bool b => simp [extensionsFromFields, hk1] at hok
      | num n => simp [extensionsFromFields, hk1] at hok
      | arr xs => simp [extensionsFromFields, hk1] at hok
      | obj fs => simp [extensionsFromFields, hk1] at hok
    · by_cases hk2 : k = "para_id"
      · cases v with
        | num n =>
          by_cases hn : 0 ≤ n ∧ n < 4294967296
          · have hok2 : extensionsFromFields tl none (some n.toNat) =
                Except.ok e := by
              simpa [extensionsFromFields, hk1, hk2, hn] using hok
            obtain ⟨s, htl, he⟩ :=
              extensionsFromFields_pid_seen tl n.toNat e hok2
            subst he
            have hcast : (Int.toNat n : Int) = n :=
              Int.toNat_of_nonneg hn.1
            obtain ⟨hn0, hnlt⟩ := hn
            constructor
            · show n.toNat < 4294967296
              omega
            · right
              rw [hk2, htl]
              simp [hcast]
          · simp [extensionsFromFields, hk1, hk2, hn] at hok
        | null => simp [extensionsFromFields, hk1, hk2] at hok
        | bool b => simp [extensionsFromFields, hk1, hk2] at hok
        | str s => simp [extensionsFromFields, hk1, hk2] at hok
        | arr xs => simp [extensionsFromFields, hk1, hk2] at hok
        | obj fs => simp [extensionsFromFields, hk1, hk2] at hok
      · simp [extensionsFromFields, hk1, hk2] at hok

/-- C3: deserializing an `Extensions` record succeeds only for a JSON
object holding exactly the two declared fields, a string `relay_chain` and
a `para_id` that is an unsigned integer fitting in 32 bits, each exactly
once (in either order); and any object containing a field outside the
declared set is rejected with a deserialization error, not ignored. -/
theorem extensions_strict_deserialization :
    (∀ (j : Json) (e : Extensions), deserializeExtensions j = Except.ok e →
        e.para_id < 4294967296 ∧
        (j = Json.obj [("relay_chain", Json.str e.relay_chain),
                       ("para_id", Json.num (e.para_id : Int))] ∨
         j = Json.obj [("para_id", Json.num (e.para_id : Int)),
                       ("relay_chain", Json.str e.relay_chain)])) ∧
    (∀ (fields : List (String × Json)) (k : String) (v : Json),
        (k, v) ∈ fields → k ≠ "relay_chain" → k ≠ "para_id" →
        (deserializeExtensions (Json.obj fields)).toOption = none) := by
  constructor
  · intro j e hok
    cases j with
    | obj fields =>
      obtain ⟨hb, hshape⟩ := extensionsFromFields_initial_ok fields e hok
      refine ⟨hb, ?_⟩
      rcases hshape with h | h
      · left
        rw [h]
      · right
        rw [h]
    | null => simp [deserializeExtensions] at hok
    | bool b => simp [deserializeExtensions] at hok
    | num n => simp [deserializeExtensions] at hok
    | str s => simp [deserializeExtensions] at hok
    | arr xs => simp [deserializeExtensions] at hok
  · intro fields k v hmem hk1 hk2
    cases hres : deserializeExtensions (Json.obj fields) with
    | error msg => rfl
    | ok e =>
      rcases extensionsFromFields_ok_keys fields none none e hres
          (k, v) hmem with h | h
      · exact absurd h hk1
      · exact absurd h hk2

/-- C3 witness: the strict-deserialization theorem applied to the spec's
own example input, an object carrying the extra unknown field "extra". -/
theorem extensions_strict_deserialization_witness :
    (deserializeExtensions (Json.obj
        [("relay_chain", Json.str "x"), ("para_id", Json.num 1),
         ("extra", Json.str "y")])).toOption = none :=
  extensions_strict_deserialization.2
    [("relay_chain", Json.str "x"), ("para_id", Json.num 1),
     ("extra", Json.str "y")]
    "extra" (Json.str "y")
    (List.mem_cons_of_mem _ (List.mem_cons_of_mem _ (List.mem_cons_self _ _)))
    (by decide) (by decide)

/-- A concrete instantiation of the external seed-derivation collaborator,
used to evaluate the seed-derivation theorems on concrete inputs. -/
def sampleCrypto : SeedCrypto :=
  { pairFromStringPublic := fun s => [s.length]
    intoAccount := fun l => 0 :: l }

/-- A concrete telemetry constructor that always fails, used to evaluate
the telemetry-degradation theorem on a concrete input. -/
def failingTelemetryNew :
    List (String × Nat) → Except String TelemetryEndpoints :=
  fun _ => Except.error "invalid telemetry URL"

/-- C1: for every root account, endowed list and parachain id, with the
runtime blob present, `testnet_genesis` returns a `GenesisConfig` whose
balance list gives every endowed account exactly the fixed balance
`10^28 = 10_000_000_000_000_000_000_000_000_000`, whose sudo key is the
root verbatim, and whose stored parachain id is the input id verbatim. -/
theorem testnet_genesis_balances_root_and_id
    (wasm : List Nat) (r : AccountId) (es : List AccountId) (i : ParaId) :
    ∃ g : GenesisConfig,
      testnet_genesis (some wasm) r es i = Except.ok g ∧
      g.pallet_balances.balances = es.map (fun k => (k, 10 ^ 28)) ∧
      (10 : Nat) ^ 28 = 10000000000000000000000000000 ∧
      g.pallet_sudo.key = r ∧
      g.parachain_info.parachain_id = i :=
  ⟨_, rfl, rfl, by norm_num, rfl, rfl⟩

/-- C2 counterexample: when the runtime blob is absent, `testnet_genesis`
does fail, but its message is the literal panic string
"WASM binary was not build, please build it!", not the message
"runtime binary missing" asserted by the claim. -/
theorem testnet_genesis_missing_wasm_message_differs :
    testnet_genesis none [] [] 0 =
      Except.error "WASM binary was not build, please build it!" ∧
    (Except.error "WASM binary was not build, please build it!" :
        Except String GenesisConfig) ≠
      Except.error "runtime binary missing" :=
  ⟨rfl, by simp⟩

/-- C2 (amended): when the runtime blob is absent, genesis construction
fails fast with the descriptive message "WASM binary was not build, please
build it!" and never returns a `GenesisConfig`; when the blob is present,
the failure branch is unreachable and the blob is stored verbatim as the
runtime code. -/
theorem testnet_genesis_fails_fast_without_wasm
    (r : AccountId) (es : List AccountId) (i : ParaId) :
    testnet_genesis none r es i =
      Except.error "WASM binary was not build, please build it!" ∧
    ∀ wasm : List Nat, ∃ g : GenesisConfig,
      testnet_genesis (some wasm) r es i = Except.ok g ∧
      g.frame_system.code = wasm :=
  ⟨rfl, fun _ => ⟨_, rfl, rfl⟩⟩

/-- C4: seed derivation is a deterministic pure function of the seed
string alone; two calls with the same seed (against the same external
crypto primitives, i.e. the same build) return identical public keys and
identical account ids. -/
theorem seed_derivation_deterministic (c : SeedCrypto) (s1 s2 : String)
    (h : s1 = s2) :
    get_from_seed c s1 = get_from_seed c s2 ∧
    get_account_id_from_seed c s1 = get_account_id_from_seed c s2 := by
  subst h
  exact ⟨rfl, rfl⟩

/-- C4 witness: the determinism theorem evaluated at the seed "Alice"
against a concrete crypto instantiation. -/
theorem seed_derivation_deterministic_witness :
    get_from_seed sampleCrypto "Alice" = get_from_seed sampleCrypto "Alice" ∧
    get_account_id_from_seed sampleCrypto "Alice" =
      get_account_id_from_seed sampleCrypto "Alice" :=
  seed_derivation_deterministic sampleCrypto "Alice" "Alice" rfl

/-- C5: the development/local profile factory produces a spec classified
`Local`, with no telemetry endpoints, relay chain "westend-dev", root
account derived from seed "Alice", and endowed accounts exactly the six
named identities Alice..Ferdie plus the stash variant of each, obtained by
appending the suffix "//stash" to the seed before derivation. -/
theorem get_chain_spec_development_profile
    (c : SeedCrypto) (wasm : List Nat) (i : ParaId) :
    (get_chain_spec c (some wasm) i).chain_type = ChainType.Local ∧
    (get_chain_spec c (some wasm) i).telemetry_endpoints = none ∧
    (get_chain_spec c (some wasm) i).extensions.relay_chain =
      "westend-dev" ∧
    ∃ g : GenesisConfig,
      (get_chain_spec c (some wasm) i).genesis = Except.ok g ∧
      g.pallet_sudo.key = get_account_id_from_seed c "Alice" ∧
      g.pallet_balances.balances =
        [ (get_account_id_from_seed c "Alice", 10 ^ 28),
          (get_account_id_from_seed c "Bob", 10 ^ 28),
          (get_account_id_from_seed c "Charlie", 10 ^ 28),
          (get_account_id_from_seed c "Dave", 10 ^ 28),
          (get_account_id_from_seed c "Eve", 10 ^ 28),
          (get_account_id_from_seed c "Ferdie", 10 ^ 28),
          (get_account_id_from_seed c ("Alice" ++ "//stash"), 10 ^ 28),
          (get_account_id_from_seed c ("Bob" ++ "//stash"), 10 ^ 28),
          (get_account_id_from_seed c ("Charlie" ++ "//stash"), 10 ^ 28),
          (get_account_id_from_seed c ("Dave" ++ "//stash"), 10 ^ 28),
          (get_account_id_from_seed c ("Eve" ++ "//stash"), 10 ^ 28),
          (get_account_id_from_seed c ("Ferdie" ++ "//stash"), 10 ^ 28) ] :=
  ⟨rfl, rfl, rfl, _, rfl, rfl, rfl⟩

/-- C6: each of the three profile factories propagates its parachain id
argument unchanged both into the extension record's `para_id` field and
into the genesis record's stored `parachain_id`. -/
theorem para_id_propagated_unchanged (c : SeedCrypto)
    (tn : List (String × Nat) → Except String TelemetryEndpoints)
    (wasm : List Nat) (i : ParaId) :
    ((get_chain_spec c (some wasm) i).extensions.para_id = i ∧
      ∃ g : GenesisConfig,
        (get_chain_spec c (some wasm) i).genesis = Except.ok g ∧
        g.parachain_info.parachain_id = i) ∧
    ((staging_test_net (some wasm) i).extensions.para_id = i ∧
      ∃ g : GenesisConfig,
        (staging_test_net (some wasm) i).genesis = Except.ok g ∧
        g.parachain_info.parachain_id = i) ∧
    ((starks_pc1_testnet tn (some wasm) i).extensions.para_id = i ∧
      ∃ g : GenesisConfig,
        (starks_pc1_testnet tn (some wasm) i).genesis = Except.ok g ∧
        g.parachain_info.parachain_id = i) :=
  ⟨⟨rfl, _, rfl, rfl⟩, ⟨rfl, _, rfl, rfl⟩, ⟨rfl, _, rfl, rfl⟩⟩

/-- C7: in `starks_pc1_testnet`, a failure of the external telemetry
endpoint constructor is absorbed as "no telemetry": the telemetry option
becomes `none` while the specification is still fully constructed with all
its other fields intact, and no error is surfaced to the caller. -/
theorem starks_telemetry_failure_absorbed
    (tn : List (String × Nat) → Except String TelemetryEndpoints)
    (err : String) (wasm_binary : Option (List Nat)) (i : ParaId)
    (h : tn [("wss://telemetry.polkadot.io/submit/", 0)] =
      Except.error err) :
    (starks_pc1_testnet tn wasm_binary i).telemetry_endpoints = none ∧
    (starks_pc1_testnet tn wasm_binary i).name = "zCloak Network PC1" ∧
    (starks_pc1_testnet tn wasm_binary i).chain_type = ChainType.Live ∧
    (starks_pc1_testnet tn wasm_binary i).extensions =
      { relay_chain := "rococo", para_id := i } ∧
    (starks_pc1_testnet tn wasm_binary i).genesis =
      testnet_genesis wasm_binary starks_root_account
        [starks_endowed_account] i := by
  refine ⟨?_, rfl, rfl, rfl, rfl⟩
  simp [starks_pc1_testnet, ChainSpec.from_genesis, h, Except.toOption]

/-- C7 witness: the telemetry-degradation theorem evaluated against a
concrete always-failing telemetry constructor. -/
theorem starks_telemetry_failure_absorbed_witness :
    ChainSpec.telemetry_endpoints
        (starks_pc1_testnet failingTelemetryNew (some [0]) 2000) = none ∧
    (starks_pc1_testnet failingTelemetryNew (some [0]) 2000).name =
      "zCloak Network PC1" ∧
    (starks_pc1_testnet failingTelemetryNew (some [0]) 2000).chain_type =
      ChainType.Live ∧
    (starks_pc1_testnet failingTelemetryNew (some [0]) 2000).extensions =
      { relay_chain := "rococo", para_id := 2000 } ∧
    (starks_pc1_testnet failingTelemetryNew (some [0]) 2000).genesis =
      testnet_genesis (some [0]) starks_root_account
        [starks_endowed_account] 2000 :=
  starks_telemetry_failure_absorbed failingTelemetryNew
    "invalid telemetry URL" (some [0]) 2000 rfl

/-- Projecting the account component back out of the balance pairs built
by `testnet_genesis` recovers the endowed list. -/
theorem map_fst_map_pair (es : List AccountId) (c : Nat) :
    (es.map (fun k => (k, c))).map Prod.fst = es := by
  induction es with
  | nil => rfl
  | cons h t ih => simp [ih]

/-- C8: duplicate accounts in the endowed list are preserved as separate
balance entries in input order: the balance list is exactly the input list
mapped to (account, 10^28) pairs, so it has the same length, projects back
to the input list, and gives each account one entry per occurrence. -/
theorem testnet_genesis_duplicates_preserved
    (wasm : List Nat) (r : AccountId) (es : List AccountId) (i : ParaId) :
    ∃ g : GenesisConfig,
      testnet_genesis (some wasm) r es i = Except.ok g ∧
      g.pallet_balances.balances = es.map (fun k => (k, 10 ^ 28)) ∧
      g.pallet_balances.balances.length = es.length ∧
      g.pallet_balances.balances.map Prod.fst = es ∧
      ∀ a : AccountId,
        (g.pallet_balances.balances.map Prod.fst).count a = es.count a := by
  refine ⟨_, rfl, rfl, by simp, map_fst_map_pair es _,
    fun a => by rw [map_fst_map_pair]⟩

/-- C10: in the staging profile the root key is byte-identical to the sole
endowed account (the same hex literal), so the admin account receives the
genesis balance entry; in the zCloak PC1 profile the root key differs from
the sole endowed account, whose single balance entry therefore does not
belong to the admin. -/
theorem admin_endowment_staging_vs_starks :
    staging_root_account = staging_endowed_account ∧
    starks_root_account ≠ starks_endowed_account ∧
    (∀ (wasm : List Nat) (i : ParaId), ∃ g : GenesisConfig,
      (staging_test_net (some wasm) i).genesis = Except.ok g ∧
      g.pallet_sudo.key = staging_root_account ∧
      g.pallet_balances.balances = [(staging_endowed_account, 10 ^ 28)]) ∧
    (∀ (tn : List (String × Nat) → Except String TelemetryEndpoints)
      (wasm : List Nat) (i : ParaId), ∃ g : GenesisConfig,
      (starks_pc1_testnet tn (some wasm) i).genesis = Except.ok g ∧
      g.pallet_sudo.key = starks_root_account ∧
      g.pallet_balances.balances = [(starks_endowed_account, 10 ^ 28)]) :=
  ⟨rfl, by decide, fun _ _ => ⟨_, rfl, rfl, rfl⟩,
    fun _ _ _ => ⟨_, rfl, rfl, rfl⟩⟩

end ZCloak
